import Mathlib

/-!
Verification development for `eddymotion/model.py`: a factory of diffusion-MRI
model adapters (`ModelFactory`), two trivial models (`TrivialB0Model`,
`AverageDWModel`), two chunked wrappers over an external reconstruction
library (`DTIModel`, `DKIModel`), and the gradient-table adapter `_rasb2dipy`.

Modelling conventions:
* numpy arrays of numbers are embedded as `List ℚ` (row-major flattening);
  machine floating point is abstracted by exact rationals, so statements about
  values hold in the exact model (the code's float32 casts are noted where
  they occur but rounding is not modelled).
* 2-D arrays are `List (List ℚ)` (lists of rows); rectangularity is a
  hypothesis where a claim needs it.
* fallible Python code is embedded in `Except PyError`; the distinct Python
  exception classes that the claims distinguish are the constructors of
  `PyError`.
* the external dipy library is opaque: it enters as the `DipyBackend`
  parameter, whose single contract (one prediction value per fitted voxel,
  spec "Collaborator boundary") is a field of the structure.
* the `ThreadPoolExecutor`/`asyncio` machinery of `fit`/`predict` gathers
  chunk results by task index (spec section 5: "results are collected in the
  original chunk-index order regardless of completion order"), so its
  denotation is an in-order map over the chunks, which is what is embedded.
-/

/-! ### Python exception classes distinguished by the claims -/

inductive PyError
  | valueError (msg : String)
  | indexError
  | keyError (key : String)
  | attributeError (attr : String)
  | notImplementedError (msg : String)
deriving DecidableEq

/-! ### List utilities mirroring the numpy operations used by the source -/

/-- Boolean-mask selection `data[mask]` on equal-shaped arrays: keep, in
flattened row-major order, the entries at positions where the mask is true.
(numpy raises on a length mismatch; theorems that use `maskSel` carry the
length agreement as a hypothesis.) -/
def maskSel : List Bool → List α → List α
  | true :: m, x :: xs => x :: maskSel m xs
  | false :: m, _ :: xs => maskSel m xs
  | _, _ => []

/-- The assignment `retval = np.zeros_like(mask); retval[mask] = preds`:
positions where the mask is true take the next prediction, positions where it
is false stay zero.  Faithful to numpy when `preds` has exactly one entry per
true mask position (hypothesis in the theorems that use it). -/
def scatterZero : List Bool → List ℚ → List ℚ
  | [], _ => []
  | true :: m, ps => ps.headD 0 :: scatterZero m ps.tail
  | false :: m, ps => 0 :: scatterZero m ps

/-- Cut a list into consecutive chunks of the given sizes. -/
def chunksOf : List Nat → List α → List (List α)
  | [], _ => []
  | n :: ns, xs => xs.take n :: chunksOf ns (xs.drop n)

/-- The chunk sizes `np.array_split` uses for `n` elements in `k` sections:
`n % k` chunks of size `n / k + 1` followed by chunks of size `n / k`. -/
def splitSizes (k n : Nat) : List Nat :=
  (List.range k).map (fun i => n / k + if i < n % k then 1 else 0)

/-- `np.array_split(xs, k)`: split into `k` consecutive chunks, as equal as
possible, remainder distributed to the first chunks. -/
def arraySplit (k : Nat) (xs : List α) : List (List α) :=
  chunksOf (splitSizes k xs.length) xs

/-! ### numpy numeric helpers used by the source, over exact rationals -/

/-- `np.max` of a flattened array (meaningful on nonempty input, like numpy). -/
def npMax (xs : List ℚ) : ℚ := xs.foldl max (xs.headD 0)

/-- `np.clip(x, lo, hi)`. -/
def clipQ (lo hi x : ℚ) : ℚ := min hi (max lo x)

/-- The S0 normalization of `DTIModel.__init__`/`DKIModel.__init__`:
`np.clip(S0.astype("float32") / S0.max(), a_min=1e-5, a_max=1.0)`
(the float32 cast is absorbed by the exact-rational model). -/
def s0normalize (xs : List ℚ) : List ℚ :=
  xs.map (fun x => clipQ (1 / 100000) 1 (x / npMax xs))

/-- Insert into a sorted list (ascending). -/
def insertQ (x : ℚ) : List ℚ → List ℚ
  | [] => [x]
  | y :: ys => if x ≤ y then x :: y :: ys else y :: insertQ x ys

/-- Sort ascending (insertion sort). -/
def sortQ : List ℚ → List ℚ
  | [] => []
  | x :: xs => insertQ x (sortQ xs)

/-- `np.percentile(xs, q)` with numpy's default linear interpolation:
with `xs` sorted ascending and `pos = q/100 * (n-1)`, interpolate between the
entries at `⌊pos⌋` and `⌊pos⌋ + 1`. -/
def npPercentile (q : ℚ) (xs : List ℚ) : ℚ :=
  let s := sortQ xs
  let pos : ℚ := q * ((s.length : ℚ) - 1) / 100
  let i : Nat := pos.floor.toNat
  let lo := s.getD i 0
  let hi := s.getD (i + 1) lo
  lo + (pos - (i : ℚ)) * (hi - lo)

/-- `data.mean(-1)` applied to one voxel's row of measurements. -/
def npMean (xs : List ℚ) : ℚ := xs.sum / (xs.length : ℚ)

/-! ### Arrays passed across the interface -/

/-- The gradient argument as Python hands it over: an array-like that is
1-dimensional or 2-dimensional after `np.asanyarray`. -/
inductive PyArr
  | d1 (xs : List ℚ)
  | d2 (rows : List (List ℚ))
deriving DecidableEq

/-- Number of columns of a 2-D array represented by its rows (the length of
the first row; rectangularity is a hypothesis where a claim needs it). -/
def ncols (rows : List (List ℚ)) : Nat := (rows.headD []).length

/-- numpy transpose `.T` of a rectangular 2-D array. -/
def transp (rows : List (List ℚ)) : List (List ℚ) :=
  (List.range (ncols rows)).map (fun j => rows.map (fun r => r.getD j 0))

/-- The dipy gradient table built by `gradient_table(bvals, bvecs)`: the
b-value vector and the N×3 direction matrix handed to the external library
(whose internals are out of scope, spec section 6). -/
structure GTable where
  bvals : List ℚ
  bvecs : List (List ℚ)
deriving DecidableEq

/-- Common tail of `_rasb2dipy` once the input is 2-D: transpose when the
first axis does not have length 4, warn (Bool result component) when the
shape is exactly (4, 4), then build the table from row 3 (b-values) and the
transpose of rows 0-2 (directions).  Row access `gradient[3, :]` raises
`IndexError` when fewer than 4 rows remain, as in numpy. -/
def rasb2dipyRows (rows : List (List ℚ)) : Except PyError (Bool × GTable) :=
  let rw : List (List ℚ) × Bool :=
    if rows.length ≠ 4 then (transp rows, false)
    else if ncols rows = 4 then (rows, true)
    else (rows, false)
  if 3 < rw.1.length then
    .ok (rw.2, ⟨rw.1.getD 3 [], transp (rw.1.take 3)⟩)
  else .error .indexError

/-- `_rasb2dipy(gradient)`: a 1-D input must have exactly 4 entries
(`ValueError` otherwise) and is reshaped to a (4, 1) column; then the 2-D
tail `rasb2dipyRows` runs. -/
def rasb2dipy : PyArr → Except PyError (Bool × GTable)
  | .d1 xs =>
    if xs.length ≠ 4 then .error (.valueError "Missing gradient information.")
    else rasb2dipyRows (xs.map (fun x => [x]))
  | .d2 rows => rasb2dipyRows rows

/-! ### Trivial models -/

/-- State of `TrivialB0Model`: the single slot `_S0`. -/
structure TrivialB0Model where
  _S0 : List ℚ
deriving DecidableEq

/-- `TrivialB0Model.__init__(gtab, S0=None)`: raises
`ValueError("S0 must be provided")` when `S0` is `None`, otherwise stores it
(`gtab` is accepted and ignored, as in the source). -/
def TrivialB0Model.init (gtab : PyArr) (S0 : Option (List ℚ)) :
    Except PyError TrivialB0Model :=
  match S0 with
  | none => .error (.valueError "S0 must be provided")
  | some a => .ok ⟨a⟩

/-- `TrivialB0Model.fit(*args, **kwargs)`: does nothing. -/
def TrivialB0Model.fit (m : TrivialB0Model) (args : α) : TrivialB0Model := m

/-- `TrivialB0Model.predict(gradient, **kwargs)`: returns the stored map. -/
def TrivialB0Model.predict (m : TrivialB0Model) (gradient : PyArr) : List ℚ :=
  m._S0

/-- State of `AverageDWModel`: the single slot `_data`, which `__init__`
leaves unset (`none`; reading it before `fit` raises `AttributeError` because
of `__slots__`). -/
structure AverageDWModel where
  _data : Option (List ℚ)
deriving DecidableEq

/-- `AverageDWModel.__init__(gtab, **kwargs)`: returns without initializing
anything. -/
def AverageDWModel.init (gtab : PyArr) : AverageDWModel := ⟨none⟩

/-- `AverageDWModel.fit(data, **kwargs)`: stores `data.mean(-1)`; the data
volume is embedded voxel-major, one row of measurements (the last axis) per
voxel, so the mean over the last axis is `npMean` per row. -/
def AverageDWModel.fit (m : AverageDWModel) (data : List (List ℚ)) :
    AverageDWModel := ⟨some (data.map npMean)⟩

/-- `AverageDWModel.predict(gradient, **kwargs)`: returns the slot `_data`,
raising `AttributeError` when `fit` has never set it. -/
def AverageDWModel.predict (m : AverageDWModel) (gradient : PyArr) :
    Except PyError (List ℚ) :=
  match m._data with
  | none => .error (.attributeError "_data")
  | some d => .ok d

/-! ### Shaped arrays for the chunked wrappers -/

/-- A numeric numpy array as handed to the wrappers: its shape and its
row-major flattened values. -/
structure RawArr where
  shape : List Nat
  vals : List ℚ
deriving DecidableEq

/-- A boolean voxel mask: spatial shape plus flattened boolean values. -/
structure MaskArr where
  shape : List Nat
  vals : List Bool
deriving DecidableEq

/-- numpy dtypes the claims mention. -/
inductive DType
  | bool
  | float32
  | float64
deriving DecidableEq

/-- A full-volume output array: spatial shape, dtype, flattened values. -/
structure OutArr where
  shape : List Nat
  dtype : DType
  vals : List ℚ
deriving DecidableEq

/-- A 4-D data volume: spatial shape (`data.shape[:3]`) and, per voxel in
row-major order, the row of measurements along the last axis. -/
structure VoxData where
  shape : List Nat
  voxels : List (List ℚ)
deriving DecidableEq

/-! ### The external reconstruction library (dipy), abstracted -/

/-- The opaque collaborator boundary of spec section 6: `F` is the type of a
fitted sub-model; `fit` consumes a chunk of per-voxel measurement rows;
`predict` takes the converted gradient table, the chunk's S0 slice (or
`None`) and the optional `step` argument, and returns one predicted value per
fitted voxel — that contract (`instance.fit(data) -> fit_instance`,
`fit_instance.predict(...) -> array` with a prediction per voxel) is the
`fit_size`/`predict_size` field. -/
structure DipyBackend (F : Type) where
  fit : List (List ℚ) → F
  size : F → Nat
  predict : F → GTable → Option (List ℚ) → Option ℚ → List ℚ
  fit_size : ∀ d, size (fit d) = d.length
  predict_size : ∀ f gt s0 stp, (predict f gt s0 stp).length = size f

/-! ### DTIModel: construction -/

/-- `n_threads = kwargs.pop("n_threads", 0) or 0` followed by
`n_threads if n_threads > 0 else cpu_count()`. -/
def resolveNThreads (nt : Option ℤ) (cpuCount : Nat) : Nat :=
  let n := nt.getD 0
  if 0 < n then n.toNat else cpuCount

/-- Mask resolution of `DTIModel.__init__`: an explicit mask becomes
`mask > 0` (elementwise); otherwise, with a baseline map, the voxels whose
normalized S0 exceeds `np.percentile(S0_normalized, 35)`; otherwise no mask
yet. -/
def dtiResolveMask : Option RawArr → Option RawArr → Option MaskArr
  | some m, _ => some ⟨m.shape, m.vals.map (fun x => decide (0 < x))⟩
  | none, some s =>
    let sn := s0normalize s.vals
    some ⟨s.shape, sn.map (fun x => decide (npPercentile 35 sn < x))⟩
  | none, none => none

/-- What `DTIModel.__init__` keeps: the worker count (the length of the list
`[DipyTensorModel(gtab)] * n_threads` of identical templates), the normalized
baseline subset to the masked voxels, and the resolved mask if any. -/
structure DTIPre where
  nthreads : Nat
  _S0 : Option (List ℚ)
  _mask : Option MaskArr
deriving DecidableEq

/-- `DTIModel.__init__(gtab, S0=None, mask=None, n_threads=...)`: resolve the
worker count, normalize the baseline, resolve the mask, subset the baseline
to the masked voxels.  (The dipy keyword allow-list filtering constructs the
wrapped templates and is opaque here.) -/
def dtiInit (nt : Option ℤ) (cpuCount : Nat) (S0 mask : Option RawArr) :
    DTIPre :=
  let mk := dtiResolveMask mask S0
  { nthreads := resolveNThreads nt cpuCount
    _S0 := S0.map (fun s => maskSel ((mk.getD ⟨[], []⟩).vals) (s0normalize s.vals))
    _mask := mk }

/-! ### DTIModel: fit and predict -/

/-- The mask `DTIModel.fit` works with: the resolved mask, defaulting to
`np.ones(data.shape[:3], dtype=bool)` when unresolved. -/
def fitMask (pre : DTIPre) (d : VoxData) : MaskArr :=
  pre._mask.getD ⟨d.shape, List.replicate d.shape.prod true⟩

/-- State after `DTIModel.fit`: the per-chunk fit results (in original chunk
order — the event loop gathers by task index), the stored baseline, the mask. -/
structure DTIState (F : Type) where
  models : List F
  _S0 : Option (List ℚ)
  _mask : MaskArr

/-- `DTIModel.fit(data)`: default the mask, select the masked voxels
(`data[self._mask, ...]`), split them with `np.array_split` into
`len(self._model)` chunks, and replace `self._model` by the chunk fits. -/
def dtiFit (B : DipyBackend F) (pre : DTIPre) (d : VoxData) : DTIState F :=
  let mask := fitMask pre d
  let masked := maskSel mask.vals d.voxels
  ⟨(arraySplit pre.nthreads masked).map B.fit, pre._S0, mask⟩

/-- The per-chunk S0 arguments of `DTIModel.predict`: `[None] * k` without a
baseline, `np.array_split(self._S0, k)` with one. -/
def s0chunks (k : Nat) : Option (List ℚ) → List (Option (List ℚ))
  | none => List.replicate k none
  | some s => (arraySplit k s).map some

/-- Core of `DTIModel.predict` once the gradient is converted: predict each
chunk with its sub-model and S0 slice, concatenate in original chunk order
(`np.squeeze(np.concatenate(predicted, axis=0))`; with a single requested
gradient the squeeze only drops the singleton trailing axis, leaving the
flattened data unchanged), then scatter into
`np.zeros_like(self._mask, dtype="float32")` at the masked positions. -/
def dtiPredictCore (B : DipyBackend F) (st : DTIState F) (gt : GTable)
    (stp : Option ℚ) : OutArr :=
  let k := st.models.length
  let preds := List.zipWith (fun f so => B.predict f gt so stp)
    st.models (s0chunks k st._S0)
  ⟨st._mask.shape, .float32, scatterZero st._mask.vals preds.flatten⟩

/-- `DTIModel.predict(gradient, step=None)`: every task converts the raw
gradient with `_rasb2dipy` (an invalid gradient propagates that failure),
then the chunked prediction runs. -/
def dtiPredict (B : DipyBackend F) (st : DTIState F) (gradient : PyArr)
    (stp : Option ℚ) : Except PyError OutArr :=
  (rasb2dipy gradient).map (fun p => dtiPredictCore B st p.2 stp)

/-! ### DKIModel -/

/-- Mask resolution of `DKIModel.__init__`: an explicit mask is stored
unchanged (`self._mask = mask`, no boolean cast — `Sum.inl`); otherwise, with
a baseline map, the same 35th-percentile threshold as DTI (a boolean mask,
`Sum.inr`); otherwise none. -/
def dkiResolveMask : Option RawArr → Option RawArr →
    Option (List Nat × (List ℚ ⊕ List Bool))
  | some m, _ => some (m.shape, .inl m.vals)
  | none, some s =>
    let sn := s0normalize s.vals
    some (s.shape, .inr (sn.map (fun x => decide (npPercentile 35 sn < x))))
  | none, none => none

/-- `DKIModel` state with a boolean-resolved mask, the situation claim C1
conditions on ("fit with a resolved mask"); `DKIModel` keeps a single wrapped
instance (no chunking) and no worker count.  A raw non-boolean stored mask
(see `dkiResolveMask`) and the maskless path `data[None, ...]` fall outside
this state. -/
structure DKIState (F : Type) where
  model : F
  _S0 : Option (List ℚ)
  _mask : MaskArr

/-- Pre-fit DKI data: stored baseline (already masked) and resolved mask. -/
structure DKIPre where
  _S0 : Option (List ℚ)
  _mask : MaskArr
deriving DecidableEq

/-- `DKIModel.fit(data)`: `self._model = self._model.fit(data[self._mask, ...])`
— a single fit over all masked voxels. -/
def dkiFit (B : DipyBackend F) (pre : DKIPre) (d : VoxData) : DKIState F :=
  ⟨B.fit (maskSel pre._mask.vals d.voxels), pre._S0, pre._mask⟩

/-- Core of `DKIModel.predict`: a single prediction over the masked voxels
(dipy's `predict(gtab, S0=...)` has no step argument here, hence `none`),
squeezed, then scattered into `np.zeros_like(self._mask, dtype="float32")`.
With a resolved mask the squeezed prediction is 1-D, so the
`predicted.ndim == 3` early return of the source (reachable only on the
maskless path) does not fire. -/
def dkiPredictCore (B : DipyBackend F) (st : DKIState F) (gt : GTable) :
    OutArr :=
  ⟨st._mask.shape, .float32,
    scatterZero st._mask.vals (B.predict st.model gt st._S0 none)⟩

/-- `DKIModel.predict(gradient)`: convert the gradient, then predict. -/
def dkiPredict (B : DipyBackend F) (st : DKIState F) (gradient : PyArr) :
    Except PyError OutArr :=
  (rasb2dipy gradient).map (fun p => dkiPredictCore B st p.2)

/-! ### ModelFactory -/

/-- A keyword-argument value the factory inspects: Python `None` or an
array. -/
inductive KwVal
  | pynone
  | arr (xs : List ℚ)
deriving DecidableEq

/-- Python's `str.lower()` over the character sequence. -/
def pyLower (s : String) : String := ⟨s.data.map Char.toLower⟩

/-- Python's `str.startswith(p)`: the first `len(p)` characters equal `p`. -/
def pyStarts (s p : String) : Bool := s.data.take p.data.length == p.data

/-- What `ModelFactory.init` constructs: the variant tag and the converted
gradient table (constructor arguments the claims never consult are elided;
the Shore parameter defaults and the keyword merging do not influence which
variant is produced). -/
inductive Constructed
  | trivialB0 (m : TrivialB0Model)
  | shore (gt : GTable)
  | sfm (gt : GTable)
  | dti (gt : GTable)
  | dki (gt : GTable)
deriving DecidableEq

/-- `ModelFactory.init(gtab, model="DTI", **kwargs)`: `"s0"`/`"b0"` (matched
on `model.lower()`) build a `TrivialB0Model` from `kwargs.pop("S0")`
(`KeyError` when absent); every other name first converts the gradient table,
then dispatches on `model.lower()` — `startswith` for `"3dshore"` and
`"sfm"`, exact match for `"dti"` and `"dki"` — and otherwise raises
`NotImplementedError` without constructing anything. -/
def ModelFactory.init (gtab : PyArr) (modelName : String)
    (kwargs : List (String × KwVal)) : Except PyError Constructed :=
  if pyLower modelName = "s0" ∨ pyLower modelName = "b0" then
    match kwargs.lookup "S0" with
    | none => .error (.keyError "S0")
    | some .pynone => (TrivialB0Model.init gtab none).map .trivialB0
    | some (.arr a) => (TrivialB0Model.init gtab (some a)).map .trivialB0
  else
    match rasb2dipy gtab with
    | .error e => .error e
    | .ok (_, gt) =>
      if pyStarts (pyLower modelName) "3dshore" then .ok (.shore gt)
      else if pyStarts (pyLower modelName) "sfm" then .ok (.sfm gt)
      else if pyLower modelName = "dti" then .ok (.dti gt)
      else if pyLower modelName = "dki" then .ok (.dki gt)
      else .error (.notImplementedError
        ("Unsupported model <" ++ modelName ++ ">."))

/-! ### Spec-side definitions used to compare claims against the code -/

/-- The mask resolution claim C5 describes for an explicit mask: the mask
"cast to boolean" — numpy's `astype(bool)`, i.e. elementwise `x ≠ 0`. -/
def specCastBoolMask (m : RawArr) : List Bool :=
  m.vals.map (fun x => decide (x ≠ 0))

/-- The determinism hypothesis of claim C2 about the wrapped dipy model: its
fit/predict pipeline is voxelwise, i.e. there is a per-voxel function that
the chunk prediction maps (with the matching S0 entry when a baseline slice
is passed).  dipy's tensor fits are per-voxel, which is what makes the
chunked rewrite of the source meaningful at all. -/
def Voxelwise (B : DipyBackend F) : Prop :=
  ∃ p : List ℚ → Option ℚ → GTable → Option ℚ → ℚ,
    (∀ c s gt stp, c.length = s.length →
      B.predict (B.fit c) gt (some s) stp =
        List.zipWith (fun v s0 => p v (some s0) gt stp) c s) ∧
    (∀ c gt stp,
      B.predict (B.fit c) gt none stp = c.map (fun v => p v none gt stp))

/-! ### Helper lemmas: mask selection and zero-scattering -/

theorem maskSel_length_count :
    ∀ (m : List Bool) (xs : List α), m.length = xs.length →
      (maskSel m xs).length = m.count true
  | [], [], _ => by simp [maskSel]
  | [], _ :: _, h => by simp at h
  | _ :: _, [], h => by simp at h
  | true :: m, x :: xs, h => by
    have ih := maskSel_length_count m xs (by simpa using h)
    simp [maskSel, ih, List.count_cons]
  | false :: m, x :: xs, h => by
    have ih := maskSel_length_count m xs (by simpa using h)
    simp [maskSel, ih, List.count_cons]

theorem maskSel_length_congr :
    ∀ (m : List Bool) (xs : List α) (ys : List β), xs.length = ys.length →
      (maskSel m xs).length = (maskSel m ys).length
  | [], _, _, _ => by simp [maskSel]
  | _ :: _, [], [], _ => by simp [maskSel]
  | _ :: _, [], _ :: _, h => by simp at h
  | _ :: _, _ :: _, [], h => by simp at h
  | true :: m, x :: xs, y :: ys, h => by
    have ih := maskSel_length_congr m xs ys (by simpa using h)
    simp [maskSel, ih]
  | false :: m, x :: xs, y :: ys, h => by
    have ih := maskSel_length_congr m xs ys (by simpa using h)
    simp [maskSel, ih]

theorem scatterZero_length : ∀ (m : List Bool) (ps : List ℚ),
    (scatterZero m ps).length = m.length
  | [], _ => rfl
  | true :: m, ps => by simp [scatterZero, scatterZero_length m]
  | false :: m, ps => by simp [scatterZero, scatterZero_length m]

theorem scatterZero_outside : ∀ (m : List Bool) (ps : List ℚ) (i : Nat),
    m.getD i false = false → (scatterZero m ps).getD i 0 = 0
  | [], _, _, _ => by simp [scatterZero]
  | true :: m, ps, 0, h => by simp at h
  | false :: m, ps, 0, _ => by simp [scatterZero]
  | true :: m, ps, i + 1, h =>
    scatterZero_outside m ps.tail i (by simpa using h)
  | false :: m, ps, i + 1, h =>
    scatterZero_outside m ps i (by simpa using h)

theorem maskSel_scatterZero : ∀ (m : List Bool) (ps : List ℚ),
    ps.length = m.count true → maskSel m (scatterZero m ps) = ps
  | [], ps, h => by
    have : ps = [] := List.eq_nil_of_length_eq_zero (by simpa using h)
    simp [this, scatterZero, maskSel]
  | true :: m, ps, h => by
    match ps with
    | [] => simp [List.count_cons] at h
    | p :: ps =>
      have ih := maskSel_scatterZero m ps (by simpa [List.count_cons] using h)
      simp [scatterZero, maskSel, ih]
  | false :: m, ps, h => by
    have ih := maskSel_scatterZero m ps (by simpa [List.count_cons] using h)
    simp [scatterZero, maskSel, ih]

/-! ### Helper lemmas: chunk splitting -/

theorem chunksOf_length : ∀ (ns : List Nat) (xs : List α),
    (chunksOf ns xs).length = ns.length
  | [], _ => rfl
  | n :: ns, xs => by simp [chunksOf, chunksOf_length ns]

theorem chunksOf_flatten : ∀ (ns : List Nat) (xs : List α),
    xs.length ≤ ns.sum → (chunksOf ns xs).flatten = xs
  | [], xs, h => by
    have hx : xs = [] := by simpa using h
    simp [hx, chunksOf]
  | n :: ns, xs, h => by
    have ih := chunksOf_flatten ns (xs.drop n) (by simp at h ⊢; omega)
    simp [chunksOf, ih]

theorem sum_range_ite (q r : Nat) : ∀ (k : Nat),
    ((List.range k).map (fun i => q + if i < r then 1 else 0)).sum
      = k * q + min k r
  | 0 => by simp
  | k + 1 => by
    rw [List.range_succ, List.map_append, List.sum_append, sum_range_ite q r k]
    by_cases h : k < r <;> simp [h, Nat.succ_mul] <;> omega

theorem splitSizes_sum (k n : Nat) (hk : 1 ≤ k) : (splitSizes k n).sum = n := by
  unfold splitSizes
  rw [sum_range_ite]
  have h1 : n % k < k := Nat.mod_lt _ hk
  rw [Nat.min_eq_right (Nat.le_of_lt h1)]
  exact Nat.div_add_mod n k

theorem splitSizes_length (k n : Nat) : (splitSizes k n).length = k := by
  simp [splitSizes]

theorem arraySplit_length (k : Nat) (xs : List α) :
    (arraySplit k xs).length = k := by
  rw [arraySplit, chunksOf_length, splitSizes_length]

theorem arraySplit_flatten (k : Nat) (xs : List α) (hk : 1 ≤ k) :
    (arraySplit k xs).flatten = xs :=
  chunksOf_flatten _ _ (by rw [splitSizes_sum _ _ hk])

theorem zipWith_replicate_right_le (f : α → β → γ) (c : β) :
    ∀ (l : List α) (k : Nat), l.length ≤ k →
      List.zipWith f l (List.replicate k c) = l.map (fun a => f a c)
  | [], _, _ => by simp
  | a :: l, 0, h => by simp at h
  | a :: l, k + 1, h => by
    have ih := zipWith_replicate_right_le f c l k (by simpa using h)
    simp [List.replicate_succ, ih]

theorem flatten_zipWith_chunksOf {g : List α → List β → List γ}
    {q : α → β → γ} (hg : ∀ c s, c.length = s.length →
      g c s = List.zipWith q c s) :
    ∀ (ns : List Nat) (xs : List α) (ys : List β), xs.length = ys.length →
      xs.length ≤ ns.sum →
      (List.zipWith g (chunksOf ns xs) (chunksOf ns ys)).flatten
        = List.zipWith q xs ys
  | [], xs, ys, hxy, hsum => by
    have hx : xs = [] := by simpa using hsum
    simp [hx, chunksOf]
  | n :: ns, xs, ys, hxy, hsum => by
    have ih := flatten_zipWith_chunksOf hg ns (xs.drop n) (ys.drop n)
      (by simp [hxy]) (by simp at hsum ⊢; omega)
    have hhd : g (xs.take n) (ys.take n)
        = List.zipWith q (xs.take n) (ys.take n) :=
      hg _ _ (by simp [hxy])
    simp only [chunksOf, List.zipWith_cons_cons, List.flatten_cons, hhd, ih]
    rw [← List.take_zipWith, ← List.drop_zipWith, List.take_append_drop]

theorem flatten_map_chunksOf {g : List α → List γ} {q : α → γ}
    (hg : ∀ c, g c = c.map q) :
    ∀ (ns : List Nat) (xs : List α), xs.length ≤ ns.sum →
      ((chunksOf ns xs).map g).flatten = xs.map q
  | [], xs, hsum => by
    have hx : xs = [] := by simpa using hsum
    simp [hx, chunksOf]
  | n :: ns, xs, hsum => by
    have ih := flatten_map_chunksOf hg ns (xs.drop n) (by simp at hsum ⊢; omega)
    simp only [chunksOf, List.map_cons, List.flatten_cons, hg, ih]
    rw [← List.map_append, List.take_append_drop]

theorem predict_flatten_length (B : DipyBackend F) (gt : GTable)
    (stp : Option ℚ) :
    ∀ (ms : List F) (sos : List (Option (List ℚ))), ms.length ≤ sos.length →
      ((List.zipWith (fun f so => B.predict f gt so stp) ms sos).flatten).length
        = (ms.map B.size).sum
  | [], _, _ => by simp
  | m :: ms, [], h => by simp at h
  | m :: ms, so :: sos, h => by
    have ih := predict_flatten_length B gt stp ms sos (by simpa using h)
    simp [ih, B.predict_size]

/-! ### Helper lemmas: transpose -/

theorem getD_map_of_lt {f : α → β} {l : List α} {i : Nat} (h : i < l.length)
    (d : β) (d' : α) : (l.map f).getD i d = f (l.getD i d') := by
  simp [List.getD_eq_getElem?_getD, List.getElem?_eq_getElem h]

theorem getD_eq_getElem_of_lt {l : List α} {i : Nat} (h : i < l.length)
    (d : α) : l.getD i d = l[i] := by
  simp [List.getD_eq_getElem?_getD, List.getElem?_eq_getElem h]

theorem range_map_getD (d : α) : ∀ (l : List α),
    (List.range l.length).map (fun j => l.getD j d) = l
  | [] => by simp
  | a :: t => by
    rw [show (a :: t).length = t.length + 1 from rfl, List.range_succ_eq_map]
    simp only [List.map_cons, List.map_map]
    have hf : ((fun j => (a :: t).getD j d) ∘ Nat.succ)
        = fun j => t.getD j d := funext fun j => rfl
    rw [hf, range_map_getD d t]
    rfl

theorem transp_length (rows : List (List ℚ)) :
    (transp rows).length = ncols rows := by
  simp [transp]

theorem transp_getElem (rows : List (List ℚ)) (i : Nat)
    (h : i < (transp rows).length) :
    (transp rows)[i] = rows.map (fun r => r.getD i 0) := by
  unfold transp at h ⊢
  simp

theorem transp_row_length (rows : List (List ℚ)) :
    ∀ r ∈ transp rows, r.length = rows.length := by
  intro r hr
  simp only [transp, List.mem_map] at hr
  obtain ⟨j, _, rfl⟩ := hr
  simp

theorem ncols_transp (rows : List (List ℚ)) (h : 0 < ncols rows) :
    ncols (transp rows) = rows.length := by
  unfold transp
  obtain ⟨n, hn⟩ : ∃ n, ncols rows = n + 1 := ⟨ncols rows - 1, by omega⟩
  rw [hn, List.range_succ_eq_map]
  simp [ncols]

theorem transp_transp (rows : List (List ℚ)) (N : Nat) (hne : rows ≠ [])
    (hrect : ∀ r ∈ rows, r.length = N) (hN : 0 < N) :
    transp (transp rows) = rows := by
  have hcols : ncols rows = N := by
    cases rows with
    | nil => exact absurd rfl hne
    | cons a t => exact hrect a (List.mem_cons_self a t)
  have hct : ncols (transp rows) = rows.length :=
    ncols_transp rows (by rw [hcols]; exact hN)
  apply List.ext_getElem
  · rw [transp_length, hct]
  · intro i h1 h2
    rw [transp_getElem _ _ h1]
    have hchain : (transp rows).map (fun r => r.getD i 0)
        = (List.range N).map (fun j => (rows.getD i []).getD j 0) := by
      simp only [transp, hcols, List.map_map]
      apply List.map_congr_left
      intro j _
      exact getD_map_of_lt h2 0 []
    rw [hchain, getD_eq_getElem_of_lt h2]
    have hlen : rows[i].length = N := hrect _ (List.getElem_mem h2)
    rw [← hlen, range_map_getD]

/-! ### Claim theorems -/

/-- Claim C6: a baseline (B0/S0) model constructed with baseline map `S0`
returns exactly that stored map from `predict`, for every gradient argument
and after any number of `fit` calls — `fit` is a no-op changing no state, and
`predict` behaves identically whether or not `fit` was ever called. -/
theorem trivialB0_predict_identity {α : Type} (gt0 : PyArr) (a : List ℚ)
    (m : TrivialB0Model)
    (hinit : TrivialB0Model.init gt0 (some a) = .ok m) :
    (∀ args : α, m.fit args = m) ∧
    (∀ gradient : PyArr, m.predict gradient = a) ∧
    (∀ (n : Nat) (args : α) (gradient : PyArr),
      ((fun s => TrivialB0Model.fit s args)^[n] m).predict gradient = a) := by
  have hm : m = ⟨a⟩ := by
    simp only [TrivialB0Model.init, Except.ok.injEq] at hinit
    exact hinit.symm
  subst hm
  refine ⟨fun _ => rfl, fun _ => rfl, fun n args gradient => ?_⟩
  have hid : (fun s => TrivialB0Model.fit s args) = (id : TrivialB0Model → _) :=
    rfl
  rw [hid, Function.iterate_id]
  rfl

/-- Witness for C6 at a concrete baseline map. -/
theorem trivialB0_predict_identity_witness :
    (TrivialB0Model.init (.d1 [0, 0, 0, 0]) (some [5, 7]) = .ok ⟨[5, 7]⟩) ∧
    ((∀ args : Nat, TrivialB0Model.fit (⟨[5, 7]⟩ : TrivialB0Model) args
        = ⟨[5, 7]⟩) ∧
      (∀ gradient : PyArr,
        TrivialB0Model.predict ⟨[5, 7]⟩ gradient = [5, 7]) ∧
      (∀ (n : Nat) (args : Nat) (gradient : PyArr),
        ((fun s => TrivialB0Model.fit s args)^[n] (⟨[5, 7]⟩ : TrivialB0Model)).predict
            gradient = [5, 7])) :=
  ⟨rfl, trivialB0_predict_identity (.d1 [0, 0, 0, 0]) [5, 7] ⟨[5, 7]⟩ rfl⟩

/-- Claim C7: constructing the baseline model without a baseline map fails —
directly (`S0` defaulting to `None`) with
`ValueError("S0 must be provided")`, and through the factory under model name
`"S0"` or `"B0"` with no `"S0"` keyword with `KeyError("S0")` (the
`kwargs.pop("S0")` of the source); both are missing-required-argument
failures. -/
theorem trivialB0_missing_S0_error (gt0 : PyArr)
    (kwargs : List (String × KwVal)) (hkw : kwargs.lookup "S0" = none) :
    TrivialB0Model.init gt0 none = .error (.valueError "S0 must be provided") ∧
    ModelFactory.init gt0 "S0" kwargs = .error (.keyError "S0") ∧
    ModelFactory.init gt0 "B0" kwargs = .error (.keyError "S0") := by
  refine ⟨rfl, ?_, ?_⟩ <;>
    · unfold ModelFactory.init
      rw [if_pos (by decide)]
      rw [hkw]

/-- Witness for C7 with an empty keyword dictionary. -/
theorem trivialB0_missing_S0_error_witness :
    TrivialB0Model.init (.d1 [0, 0, 0, 0]) none
        = .error (.valueError "S0 must be provided") ∧
    ModelFactory.init (.d1 [0, 0, 0, 0]) "S0" []
        = .error (.keyError "S0") ∧
    ModelFactory.init (.d1 [0, 0, 0, 0]) "B0" []
        = .error (.keyError "S0") :=
  trivialB0_missing_S0_error (.d1 [0, 0, 0, 0]) [] rfl

/-- Claim C8: for the average model, `fit(data)` followed by `predict` with
any gradient returns exactly the mean of `data` over its last axis (one
measurement row per voxel in this embedding), and the result does not depend
on the gradient argument. -/
theorem averageDW_fit_predict_mean (m : AverageDWModel)
    (data : List (List ℚ)) (g g' : PyArr) :
    (m.fit data).predict g = .ok (data.map npMean) ∧
    (m.fit data).predict g = (m.fit data).predict g' :=
  ⟨rfl, rfl⟩

/-- Claim C10: an average model on which `fit` has never been called (its
only reachable state, since `__init__` stores nothing and `predict` mutates
nothing) fails on every `predict` call with `AttributeError` — the unset
`_data` slot — and never silently returns a value. -/
theorem averageDW_predict_before_fit_error (gt0 g : PyArr) :
    (AverageDWModel.init gt0).predict g = .error (.attributeError "_data") :=
  rfl

/-- Claim C9: the factory matches model names case-insensitively (its result,
up to the error message echoing the original spelling, depends only on the
lowercased name), uses prefix matching for exactly the 3DShore-like and
SFM-like names (any lowercased name beginning with `"3dshore"` or `"sfm"`
selects those models, while extending an exact-match name, e.g. `"DTIx"` or
`"S0x"`, selects nothing), and every name outside the supported set fails
with `NotImplementedError` without constructing anything (given a gradient
table that converts, since the conversion precedes the dispatch in the
source).  The sfm conjunct carries the source's branch order: the
`"3dshore"` test runs first. -/
theorem modelFactory_dispatch :
    (∀ (g : PyArr) (s t : String) (kw : List (String × KwVal)),
      pyLower s = pyLower t →
      (ModelFactory.init g s kw).toOption
        = (ModelFactory.init g t kw).toOption) ∧
    (∀ (g : PyArr) (s : String) (kw : List (String × KwVal)) (w : Bool)
        (gt : GTable), rasb2dipy g = .ok (w, gt) →
      pyStarts (pyLower s) "3dshore" = true →
      ModelFactory.init g s kw = .ok (.shore gt)) ∧
    (∀ (g : PyArr) (s : String) (kw : List (String × KwVal)) (w : Bool)
        (gt : GTable), rasb2dipy g = .ok (w, gt) →
      pyStarts (pyLower s) "sfm" = true →
      pyStarts (pyLower s) "3dshore" = false →
      ModelFactory.init g s kw = .ok (.sfm gt)) ∧
    (∀ (g : PyArr) (s : String) (kw : List (String × KwVal)) (w : Bool)
        (gt : GTable), rasb2dipy g = .ok (w, gt) →
      pyLower s ≠ "s0" → pyLower s ≠ "b0" →
      pyStarts (pyLower s) "3dshore" = false →
      pyStarts (pyLower s) "sfm" = false →
      pyLower s ≠ "dti" → pyLower s ≠ "dki" →
      ModelFactory.init g s kw = .error
        (.notImplementedError ("Unsupported model <" ++ s ++ ">."))) ∧
    (∀ (g : PyArr) (kw : List (String × KwVal)) (w : Bool) (gt : GTable),
      rasb2dipy g = .ok (w, gt) →
      ModelFactory.init g "DTIx" kw = .error
        (.notImplementedError "Unsupported model <DTIx>.") ∧
      ModelFactory.init g "S0x" kw = .error
        (.notImplementedError "Unsupported model <S0x>.")) := by
  have main : ∀ (g : PyArr) (s : String) (kw : List (String × KwVal)) (w : Bool)
      (gt : GTable), rasb2dipy g = .ok (w, gt) →
      pyLower s ≠ "s0" → pyLower s ≠ "b0" →
      pyStarts (pyLower s) "3dshore" = false →
      pyStarts (pyLower s) "sfm" = false →
      pyLower s ≠ "dti" → pyLower s ≠ "dki" →
      ModelFactory.init g s kw = .error
        (.notImplementedError ("Unsupported model <" ++ s ++ ">.")) := by
    intro g s kw w gt hg h1 h2 h3 h4 h5 h6
    unfold ModelFactory.init
    rw [if_neg (by tauto), hg]
    simp [h3, h4, h5, h6]
  refine ⟨?_, ?_, ?_, main, ?_⟩
  · intro g s t kw h
    unfold ModelFactory.init
    rw [h]
    by_cases h1 : (pyLower t = "s0" ∨ pyLower t = "b0")
    · rw [if_pos h1, if_pos h1]
    · rw [if_neg h1, if_neg h1]
      cases hr : rasb2dipy g with
      | error e => rfl
      | ok p =>
        obtain ⟨w, gt⟩ := p
        by_cases h2 : pyStarts (pyLower t) "3dshore" <;>
          by_cases h3 : pyStarts (pyLower t) "sfm" <;>
          by_cases h4 : pyLower t = "dti" <;>
          by_cases h5 : pyLower t = "dki" <;>
          simp [h2, h3, h4, h5, Except.toOption]
  · intro g s kw w gt hg hpre
    have h1 : ¬(pyLower s = "s0" ∨ pyLower s = "b0") := by
      rintro (h | h) <;> rw [h] at hpre <;> exact absurd hpre (by decide)
    unfold ModelFactory.init
    rw [if_neg h1, hg]
    simp [hpre]
  · intro g s kw w gt hg hpre h3d
    have h1 : ¬(pyLower s = "s0" ∨ pyLower s = "b0") := by
      rintro (h | h) <;> rw [h] at hpre <;> exact absurd hpre (by decide)
    unfold ModelFactory.init
    rw [if_neg h1, hg]
    simp [hpre, h3d]
  · intro g kw w gt hg
    exact ⟨main g "DTIx" kw w gt hg (by decide) (by decide) (by decide)
        (by decide) (by decide) (by decide),
      main g "S0x" kw w gt hg (by decide) (by decide) (by decide)
        (by decide) (by decide) (by decide)⟩

/-- Witness for C9: a prefix-matched name at a concrete valid gradient. -/
theorem modelFactory_dispatch_witness :
    ModelFactory.init (.d1 [1, 2, 3, 9]) "3DShoreX" []
      = .ok (.shore ⟨[9], [[1, 2, 3]]⟩) :=
  modelFactory_dispatch.2.1 (.d1 [1, 2, 3, 9]) "3DShoreX" [] false
    ⟨[9], [[1, 2, 3]]⟩ rfl (by decide)

theorem rasb2dipyRows_not_valueError (rows : List (List ℚ)) (msg : String) :
    rasb2dipyRows rows ≠ .error (.valueError msg) := by
  unfold rasb2dipyRows
  split_ifs <;> (dsimp only; split <;> simp)

theorem rasb2dipyRows_plain (rows : List (List ℚ)) (h4 : rows.length = 4)
    (hnc : ncols rows ≠ 4) :
    rasb2dipyRows rows
      = .ok (false, ⟨rows.getD 3 [], transp (rows.take 3)⟩) := by
  unfold rasb2dipyRows
  have hc1 : ¬(rows.length ≠ 4) := by omega
  have hc3 : 3 < rows.length := by omega
  rw [if_neg hc1, if_neg hnc, if_pos hc3]

theorem rasb2dipyRows_warn (rows : List (List ℚ)) (h4 : rows.length = 4)
    (hnc : ncols rows = 4) :
    rasb2dipyRows rows
      = .ok (true, ⟨rows.getD 3 [], transp (rows.take 3)⟩) := by
  unfold rasb2dipyRows
  have hc1 : ¬(rows.length ≠ 4) := by omega
  have hc3 : 3 < rows.length := by omega
  rw [if_neg hc1, if_pos hnc, if_pos hc3]

theorem rasb2dipyRows_transposed (rows : List (List ℚ))
    (h4 : rows.length ≠ 4) (h3 : 3 < (transp rows).length) :
    rasb2dipyRows rows
      = .ok (false,
          ⟨(transp rows).getD 3 [], transp ((transp rows).take 3)⟩) := by
  unfold rasb2dipyRows
  rw [if_pos h4, if_pos h3]

/-- Claim C3: for every rectangular 4×N or N×4 gradient array with N ≠ 4
measurements (N ≥ 1; a list of rows cannot represent an empty 0×4 array), the
adapter succeeds without the orientation warning, takes the b-values from row
3 of the 4-valued axis and the directions from rows 0-2 (transposed to N×3),
produces exactly N b-values and N direction vectors, and returns the same
table for the (N, 4)-transposed input as for the (4, N) input. -/
theorem rasb2dipy_orientation (N : Nat) (g : List (List ℚ))
    (h4 : g.length = 4) (hrect : ∀ r ∈ g, r.length = N) (hN4 : N ≠ 4)
    (hN0 : 0 < N) :
    rasb2dipy (.d2 g) = .ok (false, ⟨g.getD 3 [], transp (g.take 3)⟩) ∧
    (g.getD 3 []).length = N ∧
    (transp (g.take 3)).length = N ∧
    rasb2dipy (.d2 (transp g)) = rasb2dipy (.d2 g) := by
  have hne : g ≠ [] := by
    intro h
    rw [h] at h4
    simp at h4
  have hc : ncols g = N := by
    cases g with
    | nil => exact absurd rfl hne
    | cons a t => exact hrect a (List.mem_cons_self a t)
  have h1 : rasb2dipy (.d2 g)
      = .ok (false, ⟨g.getD 3 [], transp (g.take 3)⟩) :=
    rasb2dipyRows_plain g h4 (by rw [hc]; exact hN4)
  refine ⟨h1, ?_, ?_, ?_⟩
  · rw [getD_eq_getElem_of_lt (by omega)]
    exact hrect _ (List.getElem_mem (by omega))
  · rw [transp_length]
    cases g with
    | nil => exact absurd rfl hne
    | cons a t => exact hrect a (List.mem_cons_self a t)
  · have hlt : (transp g).length = N := by rw [transp_length, hc]
    have htt : transp (transp g) = g := transp_transp g N hne hrect hN0
    have h2 : rasb2dipy (.d2 (transp g))
        = .ok (false,
            ⟨(transp (transp g)).getD 3 [],
              transp ((transp (transp g)).take 3)⟩) :=
      rasb2dipyRows_transposed (transp g) (by rw [hlt]; exact hN4)
        (by rw [htt]; omega)
    rw [h2, htt, h1]

/-- Witness for C3. -/
theorem rasb2dipy_orientation_witness :
    rasb2dipy (.d2 [[1, 2], [3, 4], [5, 6], [7, 8]])
        = .ok (false, ⟨[7, 8], [[1, 3, 5], [2, 4, 6]]⟩) ∧
    ([7, 8] : List ℚ).length = 2 ∧
    ([[1, 3, 5], [2, 4, 6]] : List (List ℚ)).length = 2 ∧
    rasb2dipy (.d2 (transp [[1, 2], [3, 4], [5, 6], [7, 8]]))
        = rasb2dipy (.d2 [[1, 2], [3, 4], [5, 6], [7, 8]]) :=
  rasb2dipy_orientation 2 [[1, 2], [3, 4], [5, 6], [7, 8]] rfl (by decide)
    (by decide) (by decide)

/-- Claim C4: the adapter fails with the invalid-argument error
(`ValueError`) exactly when its input is 1-dimensional with a number of
entries different from 4 — a 2-D input never raises `ValueError` (out-of-range
row access on degenerate shapes raises `IndexError`, a different class) — and
a rectangular input of shape exactly (4, 4) emits the orientation warning
(the `true` flag) but still produces a table. -/
theorem rasb2dipy_error_discipline :
    (∀ xs : List ℚ, rasb2dipy (.d1 xs)
        = .error (.valueError "Missing gradient information.")
      ↔ xs.length ≠ 4) ∧
    (∀ (rows : List (List ℚ)) (msg : String),
      rasb2dipy (.d2 rows) ≠ .error (.valueError msg)) ∧
    (∀ g : List (List ℚ), g.length = 4 → (∀ r ∈ g, r.length = 4) →
      rasb2dipy (.d2 g) = .ok (true, ⟨g.getD 3 [], transp (g.take 3)⟩)) := by
  refine ⟨?_, ?_, ?_⟩
  · intro xs
    constructor
    · intro h
      by_contra hlen
      rw [show rasb2dipy (.d1 xs) = rasb2dipyRows (xs.map (fun x => [x])) from by
        simp only [rasb2dipy]; rw [if_neg (by omega)]] at h
      exact rasb2dipyRows_not_valueError _ _ h
    · intro h
      simp only [rasb2dipy]
      rw [if_pos h]
  · intro rows msg
    exact rasb2dipyRows_not_valueError rows msg
  · intro g h4 hrect
    have hne : g ≠ [] := by
      intro h
      rw [h] at h4
      simp at h4
    have hc : ncols g = 4 := by
      cases g with
      | nil => exact absurd rfl hne
      | cons a t => exact hrect a (List.mem_cons_self a t)
    exact rasb2dipyRows_warn g h4 hc

/-- Witness for C4. -/
theorem rasb2dipy_error_discipline_witness :
    rasb2dipy (.d1 [1, 2, 3])
        = .error (.valueError "Missing gradient information.") ∧
    rasb2dipy (.d2 [[1, 1, 1, 1], [2, 2, 2, 2], [3, 3, 3, 3], [4, 4, 4, 4]])
        = .ok (true, ⟨[4, 4, 4, 4],
            [[1, 2, 3], [1, 2, 3], [1, 2, 3], [1, 2, 3]]⟩) :=
  ⟨(rasb2dipy_error_discipline.1 [1, 2, 3]).mpr (by decide),
    rasb2dipy_error_discipline.2.2
      [[1, 1, 1, 1], [2, 2, 2, 2], [3, 3, 3, 3], [4, 4, 4, 4]] rfl (by decide)⟩

/-- A concrete dipy backend used by the witnesses: a fitted chunk is its
voxel count and every prediction is zero. -/
def constBackend : DipyBackend Nat where
  fit := List.length
  size := id
  predict := fun n _ _ _ => List.replicate n 0
  fit_size := fun _ => rfl
  predict_size := fun _ _ _ _ => by simp

/-- Claim C5 counterexample: for the explicit DTI mask `[-1]` the source
resolves `mask > 0 = [False]`, while the mask "cast to boolean"
(`astype(bool)`, nonzero entries) is `[True]` — so the resolved mask is not
the boolean cast of the provided mask. -/
theorem dti_mask_not_bool_cast :
    dtiResolveMask (some ⟨[1], [-1]⟩) none = some ⟨[1], [false]⟩ ∧
    specCastBoolMask ⟨[1], [-1]⟩ = [true] := by
  constructor <;> rfl

/-- Claim C5 amended: DTI resolves an explicit mask by elementwise `> 0`
comparison (not a boolean cast — they differ on negative entries); with no
mask but a baseline, both DTI and DKI threshold the normalized S0 at its 35th
percentile; with neither, DTI leaves the mask unresolved at construction and
`fit` defaults it to all-true over the volume's spatial shape; DKI stores an
explicit mask unchanged, with no boolean cast. -/
theorem chunked_mask_resolution {F : Type} (B : DipyBackend F) :
    (∀ (m : RawArr) (S0 : Option RawArr),
      dtiResolveMask (some m) S0
        = some ⟨m.shape, m.vals.map (fun x => decide (0 < x))⟩) ∧
    (∀ s : RawArr,
      dtiResolveMask none (some s)
        = some ⟨s.shape, (s0normalize s.vals).map
            (fun x => decide (npPercentile 35 (s0normalize s.vals) < x))⟩) ∧
    (dtiResolveMask none none = none) ∧
    (∀ (pre : DTIPre) (d : VoxData), pre._mask = none →
      (dtiFit B pre d)._mask = ⟨d.shape, List.replicate d.shape.prod true⟩) ∧
    (∀ (pre : DTIPre) (d : VoxData) (mk : MaskArr), pre._mask = some mk →
      (dtiFit B pre d)._mask = mk) ∧
    (∀ (m : RawArr) (S0 : Option RawArr),
      dkiResolveMask (some m) S0 = some (m.shape, .inl m.vals)) ∧
    (∀ s : RawArr,
      dkiResolveMask none (some s)
        = some (s.shape, .inr ((s0normalize s.vals).map
            (fun x => decide (npPercentile 35 (s0normalize s.vals) < x))))) := by
  refine ⟨fun _ _ => rfl, fun _ => rfl, rfl, ?_, ?_, fun _ _ => rfl, fun _ => rfl⟩
  · intro pre d h
    simp [dtiFit, fitMask, h]
  · intro pre d mk h
    simp [dtiFit, fitMask, h]

/-- Witness for the amended C5 at concrete inputs. -/
theorem chunked_mask_resolution_witness :
    dtiResolveMask (some ⟨[2], [1, 0]⟩) none = some ⟨[2], [true, false]⟩ ∧
    (dtiFit constBackend ⟨1, none, none⟩ ⟨[1, 1, 2], [[1], [2]]⟩)._mask
      = ⟨[1, 1, 2], [true, true]⟩ :=
  ⟨(chunked_mask_resolution constBackend).1 ⟨[2], [1, 0]⟩ none,
    (chunked_mask_resolution constBackend).2.2.2.1 ⟨1, none, none⟩
      ⟨[1, 1, 2], [[1], [2]]⟩ rfl⟩

theorem s0chunks_length (k : Nat) (s0 : Option (List ℚ)) :
    (s0chunks k s0).length = k := by
  cases s0 <;> simp [s0chunks, arraySplit_length]

theorem predict_fit_flatten_length (B : DipyBackend F) (gt : GTable)
    (stp : Option ℚ) :
    ∀ (cs : List (List (List ℚ))) (sos : List (Option (List ℚ))),
      cs.length ≤ sos.length →
      ((List.zipWith (fun c so => B.predict (B.fit c) gt so stp) cs sos).flatten).length
        = (cs.map List.length).sum
  | [], _, _ => by simp
  | c :: cs, [], h => by simp at h
  | c :: cs, so :: sos, h => by
    have ih := predict_fit_flatten_length B gt stp cs sos (by simpa using h)
    simp [ih, B.predict_size, B.fit_size]

theorem dtiPredictCore_fit_eq (B : DipyBackend F) (pre : DTIPre)
    (d : VoxData) (gt : GTable) (stp : Option ℚ) :
    dtiPredictCore B (dtiFit B pre d) gt stp
      = ⟨(fitMask pre d).shape, .float32,
          scatterZero (fitMask pre d).vals
            ((List.zipWith (fun c so => B.predict (B.fit c) gt so stp)
              (arraySplit pre.nthreads (maskSel (fitMask pre d).vals d.voxels))
              (s0chunks pre.nthreads pre._S0)).flatten)⟩ := by
  unfold dtiPredictCore dtiFit
  simp only [List.length_map, arraySplit_length]
  rw [List.zipWith_map_left]

/-- Claim C1: a chunked model that has been fit with a resolved mask —
DTI with its `k ≥ 1` per-chunk sub-fits, DKI with its single fit over the
masked voxels — returns from every `predict` call (any gradient the adapter
accepts, any step) a full-volume array whose spatial shape equals the mask's
shape, with dtype float32, whose value is zero at every voxel outside the
mask, and whose values at the voxels inside the mask are exactly the
per-chunk predictions concatenated in original chunk order (for DKI, the
single prediction over the masked voxels). -/
theorem chunked_predict_mask_roundtrip (B : DipyBackend F)
    (pre : DTIPre) (d : VoxData) (grad : PyArr) (stp : Option ℚ)
    (w : Bool) (gt : GTable) (hgt : rasb2dipy grad = .ok (w, gt))
    (hk : 1 ≤ pre.nthreads)
    (hm : (fitMask pre d).vals.length = d.voxels.length)
    (pre2 : DKIPre) (d2 : VoxData)
    (hm2 : pre2._mask.vals.length = d2.voxels.length) :
    (∃ out : OutArr,
      dtiPredict B (dtiFit B pre d) grad stp = .ok out ∧
      out.shape = (fitMask pre d).shape ∧
      out.dtype = .float32 ∧
      out.vals.length = (fitMask pre d).vals.length ∧
      (∀ i, (fitMask pre d).vals.getD i false = false →
        out.vals.getD i 0 = 0) ∧
      maskSel (fitMask pre d).vals out.vals
        = (List.zipWith (fun c so => B.predict (B.fit c) gt so stp)
            (arraySplit pre.nthreads (maskSel (fitMask pre d).vals d.voxels))
            (s0chunks pre.nthreads pre._S0)).flatten) ∧
    (∃ out2 : OutArr,
      dkiPredict B (dkiFit B pre2 d2) grad = .ok out2 ∧
      out2.shape = pre2._mask.shape ∧
      out2.dtype = .float32 ∧
      out2.vals.length = pre2._mask.vals.length ∧
      (∀ i, pre2._mask.vals.getD i false = false →
        out2.vals.getD i 0 = 0) ∧
      maskSel pre2._mask.vals out2.vals
        = B.predict (B.fit (maskSel pre2._mask.vals d2.voxels)) gt
            pre2._S0 none) := by
  constructor
  · have hPlen :
        ((List.zipWith (fun c so => B.predict (B.fit c) gt so stp)
          (arraySplit pre.nthreads (maskSel (fitMask pre d).vals d.voxels))
          (s0chunks pre.nthreads pre._S0)).flatten).length
        = (fitMask pre d).vals.count true := by
      rw [predict_fit_flatten_length B gt stp _ _
        (by rw [arraySplit_length, s0chunks_length])]
      rw [← List.length_flatten,
        arraySplit_flatten _ _ hk,
        maskSel_length_count _ _ hm]
    refine ⟨⟨(fitMask pre d).shape, .float32,
        scatterZero (fitMask pre d).vals
          ((List.zipWith (fun c so => B.predict (B.fit c) gt so stp)
            (arraySplit pre.nthreads (maskSel (fitMask pre d).vals d.voxels))
            (s0chunks pre.nthreads pre._S0)).flatten)⟩,
      ?_, rfl, rfl, ?_, ?_, ?_⟩
    · simp only [dtiPredict, hgt, Except.map]
      rw [dtiPredictCore_fit_eq]
    · exact scatterZero_length _ _
    · intro i hi
      exact scatterZero_outside _ _ _ hi
    · exact maskSel_scatterZero _ _ hPlen
  · have hPlen2 :
        (B.predict (B.fit (maskSel pre2._mask.vals d2.voxels)) gt
          pre2._S0 none).length = pre2._mask.vals.count true := by
      rw [B.predict_size, B.fit_size, maskSel_length_count _ _ hm2]
    refine ⟨⟨pre2._mask.shape, .float32,
        scatterZero pre2._mask.vals
          (B.predict (B.fit (maskSel pre2._mask.vals d2.voxels)) gt
            pre2._S0 none)⟩,
      ?_, rfl, rfl, ?_, ?_, ?_⟩
    · simp only [dkiPredict, hgt, Except.map]
      rfl
    · exact scatterZero_length _ _
    · intro i hi
      exact scatterZero_outside _ _ _ hi
    · exact maskSel_scatterZero _ _ hPlen2

/-- Witness for C1 at a concrete two-chunk DTI model and a DKI model. -/
theorem chunked_predict_mask_roundtrip_witness :
    (∃ out : OutArr,
      dtiPredict constBackend
          (dtiFit constBackend
            ⟨2, some [1, 1, 1], some ⟨[2, 2, 1], [true, false, true, true]⟩⟩
            ⟨[2, 2, 1], [[1], [2], [3], [4]]⟩)
          (.d1 [0, 0, 0, 0]) none = .ok out ∧
      out.shape = [2, 2, 1] ∧
      out.dtype = .float32 ∧
      out.vals.length = 4 ∧
      (∀ i, [true, false, true, true].getD i false = false →
        out.vals.getD i 0 = 0) ∧
      maskSel [true, false, true, true] out.vals = [0, 0, 0]) ∧
    (∃ out2 : OutArr,
      dkiPredict constBackend
          (dkiFit constBackend ⟨some [5], ⟨[1, 1, 3], [false, true, false]⟩⟩
            ⟨[1, 1, 3], [[1], [2], [3]]⟩)
          (.d1 [0, 0, 0, 0]) = .ok out2 ∧
      out2.shape = [1, 1, 3] ∧
      out2.dtype = .float32 ∧
      out2.vals.length = 3 ∧
      (∀ i, [false, true, false].getD i false = false →
        out2.vals.getD i 0 = 0) ∧
      maskSel [false, true, false] out2.vals = [0]) :=
  chunked_predict_mask_roundtrip constBackend
    ⟨2, some [1, 1, 1], some ⟨[2, 2, 1], [true, false, true, true]⟩⟩
    ⟨[2, 2, 1], [[1], [2], [3], [4]]⟩ (.d1 [0, 0, 0, 0]) none false
    ⟨[0], [[0, 0, 0]]⟩ rfl (by decide) (by decide)
    ⟨some [5], ⟨[1, 1, 3], [false, true, false]⟩⟩ ⟨[1, 1, 3], [[1], [2], [3]]⟩
    (by decide)

theorem chunked_preds_voxelwise (B : DipyBackend F)
    (p : List ℚ → Option ℚ → GTable → Option ℚ → ℚ)
    (hp1 : ∀ c s gt stp, c.length = s.length →
      B.predict (B.fit c) gt (some s) stp
        = List.zipWith (fun v s0 => p v (some s0) gt stp) c s)
    (hp2 : ∀ c gt stp,
      B.predict (B.fit c) gt none stp = c.map (fun v => p v none gt stp))
    (gt : GTable) (stp : Option ℚ) (kk : Nat) (hkk : 1 ≤ kk)
    (masked : List (List ℚ)) (s0m : Option (List ℚ))
    (hlen : ∀ s, s0m = some s → s.length = masked.length) :
    (List.zipWith (fun c so => B.predict (B.fit c) gt so stp)
      (arraySplit kk masked) (s0chunks kk s0m)).flatten
    = (match s0m with
       | none => masked.map (fun v => p v none gt stp)
       | some s => List.zipWith (fun v s0v => p v (some s0v) gt stp) masked s) := by
  cases s0m with
  | none =>
    show (List.zipWith _ (arraySplit kk masked) (List.replicate kk none)).flatten
      = masked.map (fun v => p v none gt stp)
    rw [zipWith_replicate_right_le _ _ _ kk
      (by rw [arraySplit_length] : (arraySplit kk masked).length ≤ kk)]
    exact flatten_map_chunksOf (fun c => hp2 c gt stp) _ _
      (le_of_eq (splitSizes_sum _ _ hkk).symm)
  | some s =>
    have hls : s.length = masked.length := hlen s rfl
    show (List.zipWith _ (arraySplit kk masked)
        ((arraySplit kk s).map some)).flatten = _
    rw [List.zipWith_map_right]
    have hsplit : arraySplit kk s = chunksOf (splitSizes kk masked.length) s := by
      rw [arraySplit, hls]
    rw [hsplit]
    exact flatten_zipWith_chunksOf (fun c s' h => hp1 c s' gt stp h) _ _ _
      hls.symm (le_of_eq (splitSizes_sum _ _ hkk).symm)

theorem dtiInit_s0_length (cpu : Nat) (nt : Option ℤ)
    (S0 mask : Option RawArr) (d : VoxData)
    (hS0 : ∀ s, S0 = some s → s.vals.length = d.voxels.length) :
    ∀ s', (dtiInit nt cpu S0 mask)._S0 = some s' →
      s'.length
        = (maskSel (fitMask (dtiInit nt cpu S0 mask) d).vals d.voxels).length := by
  intro s' hs'
  cases S0 with
  | none => simp [dtiInit] at hs'
  | some s =>
    obtain ⟨mm, hmm⟩ : ∃ mm, dtiResolveMask mask (some s) = some mm := by
      cases mask <;> exact ⟨_, rfl⟩
    simp only [dtiInit, hmm, Option.map_some', Option.getD_some,
      Option.some.injEq] at hs'
    have hfm1 : fitMask (dtiInit nt cpu (some s) mask) d = mm := by
      simp [fitMask, dtiInit, hmm]
    rw [hfm1, ← hs']
    exact maskSel_length_congr mm.vals _ _
      (by simp [s0normalize]; exact hS0 s rfl)

/-- Claim C2: when the wrapped model is voxelwise (dipy's tensor fit and
predict act voxel by voxel, which is what makes the source's chunked rewrite
sound), fitting and then predicting with `n_threads = k` for any `k ≥ 1`
yields the same output array as fitting and predicting the whole masked voxel
set as a single chunk (`k = 1`): the chunk partition and the by-index gather
of the concurrently executed chunks do not change the result.  In the exact
rational model the two outputs are identical, which subsumes the claim's
floating-point tolerance. -/
theorem chunked_thread_count_invariance (B : DipyBackend F)
    (hB : Voxelwise B) (k : ℤ) (hk : 0 < k) (cpu : Nat)
    (S0 mask : Option RawArr) (d : VoxData) (grad : PyArr) (stp : Option ℚ)
    (hS0 : ∀ s, S0 = some s → s.vals.length = d.voxels.length) :
    dtiPredict B (dtiFit B (dtiInit (some k) cpu S0 mask) d) grad stp
      = dtiPredict B (dtiFit B (dtiInit (some 1) cpu S0 mask) d) grad stp := by
  obtain ⟨p, hp1, hp2⟩ := hB
  cases hr : rasb2dipy grad with
  | error e => simp [dtiPredict, hr, Except.map]
  | ok pgt =>
    obtain ⟨w, gt⟩ := pgt
    simp only [dtiPredict, hr, Except.map]
    congr 1
    rw [dtiPredictCore_fit_eq, dtiPredictCore_fit_eq]
    have hkk : (dtiInit (some k) cpu S0 mask).nthreads = k.toNat := by
      simp [dtiInit, resolveNThreads, hk]
    have h1 : (dtiInit (some 1) cpu S0 mask).nthreads = 1 := by
      simp [dtiInit, resolveNThreads]
    have hfm : fitMask (dtiInit (some k) cpu S0 mask) d
        = fitMask (dtiInit (some 1) cpu S0 mask) d := rfl
    have hsm : (dtiInit (some k) cpu S0 mask)._S0
        = (dtiInit (some 1) cpu S0 mask)._S0 := rfl
    rw [hkk, h1, hfm, hsm]
    have hk1 : 1 ≤ k.toNat := by omega
    have hs0len := dtiInit_s0_length cpu (some 1) S0 mask d hS0
    rw [chunked_preds_voxelwise B p hp1 hp2 gt stp k.toNat hk1 _ _ hs0len,
      chunked_preds_voxelwise B p hp1 hp2 gt stp 1 le_rfl _ _ hs0len]

theorem zipWith_const_replicate (z : γ) :
    ∀ (c : List α) (s : List β), c.length = s.length →
      List.zipWith (fun _ _ => z) c s = List.replicate c.length z
  | [], [], _ => rfl
  | [], _ :: _, h => by simp at h
  | _ :: _, [], h => by simp at h
  | a :: c, b :: s, h => by
    have ih := zipWith_const_replicate z c s (by simpa using h)
    simp [List.replicate_succ, ih]

theorem map_const_replicate (z : γ) :
    ∀ (l : List α), l.map (fun _ => z) = List.replicate l.length z
  | [] => rfl
  | a :: l => by simp [List.replicate_succ, map_const_replicate z l]

/-- The witness backend is voxelwise: every prediction is the constant 0 per
voxel. -/
theorem voxelwise_constBackend : Voxelwise constBackend := by
  refine ⟨fun _ _ _ _ => 0, fun c s gt stp h => ?_, fun c gt stp => ?_⟩
  · exact (zipWith_const_replicate (0 : ℚ) c s h).symm
  · exact (map_const_replicate (0 : ℚ) c).symm

/-- Witness for C2: three chunks versus one chunk at a concrete volume. -/
theorem chunked_thread_count_invariance_witness :
    dtiPredict constBackend
        (dtiFit constBackend
          (dtiInit (some 3) 4 (some ⟨[2, 2, 1], [1, 2, 3, 4]⟩)
            (some ⟨[2, 2, 1], [1, 0, 1, 1]⟩))
          ⟨[2, 2, 1], [[1], [2], [3], [4]]⟩)
        (.d1 [0, 0, 0, 0]) none
      = dtiPredict constBackend
        (dtiFit constBackend
          (dtiInit (some 1) 4 (some ⟨[2, 2, 1], [1, 2, 3, 4]⟩)
            (some ⟨[2, 2, 1], [1, 0, 1, 1]⟩))
          ⟨[2, 2, 1], [[1], [2], [3], [4]]⟩)
        (.d1 [0, 0, 0, 0]) none :=
  chunked_thread_count_invariance constBackend voxelwise_constBackend 3
    (by decide) 4 (some ⟨[2, 2, 1], [1, 2, 3, 4]⟩)
    (some ⟨[2, 2, 1], [1, 0, 1, 1]⟩) ⟨[2, 2, 1], [[1], [2], [3], [4]]⟩
    (.d1 [0, 0, 0, 0]) none (fun s hs => by cases hs; rfl)
